import Mathlib

/-!
Verification of the QA-agent data-quality engine.

The definitions below are a shallow embedding of the repository code:
- the predefined test-template registry and `getEnabledTests`
  (TypeScript module exporting `PREDEFINED_TESTS`);
- the test-execution loops of `src/app/api/generate-tests/route.ts`
  (status classification, row-count comparison, error containment);
- where a component of the repository is not present under the source tree
  (the backend execution engine and the SCD validity checks), a definition is
  modelled from the specification and marked as such in its doc comment.

JavaScript `undefined`-able values are embedded as `Option`; JS maps become
association lists in insertion order; SQL text is built with explicit string
concatenation mirroring the template literals of the source.
-/

namespace QAAgent

/-- The single-quote character used inside generated SQL text. -/
def sq : String := (Char.ofNat 39).toString

/-- Category union of the `TestTemplate` interface. -/
inductive Category
  | completeness | integrity | quality | statistical | business
deriving DecidableEq, Repr

/-- Severity union of the `TestTemplate` interface. -/
inductive Severity
  | HIGH | MEDIUM | LOW
deriving DecidableEq, Repr

/-- Value of one `foreign_key_checks` entry: `{ table, column }`. -/
structure RefCheck where
  table : String
  column : String
deriving DecidableEq, Repr

/-- Value of one `numeric_range_checks` entry: `{ min, max }`. -/
structure NumRange where
  min : Int
  max : Int
deriving DecidableEq, Repr

/-- Value of one `date_range_checks` entry: `{ min_date, max_date }`. -/
structure DateRange where
  min_date : String
  max_date : String
deriving DecidableEq, Repr

/-- The mapping configuration consumed by `generateSQL`.  A field that may be
absent on the JS config object is an `Option`; a JS object used as a map is an
association list in insertion order (the order `Object.entries` yields). -/
structure TemplateConfig where
  fullTableName : String
  required_columns : Option (List String) := none
  primary_key_columns : Option (List String) := none
  foreign_key_checks : Option (List (String × RefCheck)) := none
  numeric_range_checks : Option (List (String × NumRange)) := none
  date_range_checks : Option (List (String × DateRange)) := none
  pattern_checks : Option (List (String × String)) := none
  outlier_columns : Option (List String) := none

/-- A test template of the registry: `id`, `name`, `category`, `severity`,
`description`, `isGlobal`, and the pure generator `generateSQL`. -/
structure TestTemplate where
  id : String
  name : String
  category : Category
  severity : Severity
  description : String
  isGlobal : Bool
  generateSQL : TemplateConfig → Option String

/-- SQL text of the `no_nulls_required` template. -/
def noNullsRequiredSQL (table conditions : String) : String :=
  "\n        SELECT * FROM `" ++ table ++ "`\n        WHERE " ++ conditions ++
    "\n        LIMIT 100\n      "

/-- SQL text of the `no_duplicates_pk` template: GROUP BY the full composite
key, HAVING COUNT(*) > 1. -/
def noDuplicatesPkSQL (table pkCols : String) : String :=
  "\n        SELECT " ++ pkCols ++ ", COUNT(*) as duplicate_count\n        FROM `" ++
    table ++ "`\n        GROUP BY " ++ pkCols ++ "\n        HAVING COUNT(*) > 1\n      "

/-- SQL text of one foreign-key sub-check of `referential_integrity`. -/
def referentialIntegritySQL (table fkCol refTable refColumn : String) : String :=
  "\n        SELECT \n          " ++ sq ++ fkCol ++ sq ++ " as fk_column, \n          " ++
    fkCol ++ " as invalid_value,\n          COUNT(*) as occurrence_count\n        FROM `" ++
    table ++ "` t\n        WHERE " ++ fkCol ++ " IS NOT NULL\n        AND NOT EXISTS (\n" ++
    "          SELECT 1 FROM `" ++ refTable ++ "` r\n          WHERE r." ++ refColumn ++
    " = t." ++ fkCol ++ "\n        )\n        GROUP BY " ++ fkCol ++ "\n      "

/-- SQL text shared by `numeric_range`, `date_range` and `pattern_validation`:
select everything violating `conditions`, capped at 100 rows. -/
def rangeViolationSQL (table conditions : String) : String :=
  "\n        SELECT * FROM `" ++ table ++ "`\n        WHERE " ++ conditions ++
    "\n        LIMIT 100\n      "

/-- SQL text of the `outlier_detection` template: mean and standard deviation
of the column over its non-null values, flag rows deviating by more than three
standard deviations. -/
def outlierSQL (table col : String) : String :=
  "\n        WITH stats AS (\n          SELECT \n            AVG(" ++ col ++
    ") as mean,\n            STDDEV(" ++ col ++ ") as stddev\n          FROM `" ++ table ++
    "`\n          WHERE " ++ col ++ " IS NOT NULL\n        )\n        SELECT t.* \n" ++
    "        FROM `" ++ table ++ "` t, stats\n        WHERE ABS(t." ++ col ++
    " - stats.mean) > 3 * stats.stddev\n        LIMIT 100\n      "

/-- `row_count_match`: `generateSQL` always returns null; the check is handled
programmatically by the execution engine. -/
def row_count_match : TestTemplate where
  id := "row_count_match"
  name := "Row Count Match"
  category := .completeness
  severity := .HIGH
  description := "Verify source and target row counts match"
  isGlobal := true
  generateSQL := fun _ => none

/-- `no_nulls_required`: null when `required_columns` is absent or empty,
otherwise select rows where any required column IS NULL, joined with OR. -/
def no_nulls_required : TestTemplate where
  id := "no_nulls_required"
  name := "No NULLs in Required Fields"
  category := .completeness
  severity := .HIGH
  description := "Check required columns have no NULL values"
  isGlobal := true
  generateSQL := fun config =>
    match config.required_columns with
    | none => none
    | some cols =>
      if cols.length = 0 then none
      else
        some (noNullsRequiredSQL config.fullTableName
          (String.intercalate " OR " (cols.map (fun col => col ++ " IS NULL"))))

/-- `no_duplicates_pk`: null when `primary_key_columns` is absent or empty,
otherwise group by the joined key columns and keep groups with count > 1. -/
def no_duplicates_pk : TestTemplate where
  id := "no_duplicates_pk"
  name := "No Duplicate Primary Keys"
  category := .integrity
  severity := .HIGH
  description := "Ensure primary key uniqueness"
  isGlobal := true
  generateSQL := fun config =>
    match config.primary_key_columns with
    | none => none
    | some cols =>
      if cols.length = 0 then none
      else some (noDuplicatesPkSQL config.fullTableName (String.intercalate ", " cols))

/-- `referential_integrity`: null when `foreign_key_checks` is absent or has no
entries, otherwise one anti-join sub-query per foreign key, joined with
UNION ALL. -/
def referential_integrity : TestTemplate where
  id := "referential_integrity"
  name := "Referential Integrity"
  category := .integrity
  severity := .HIGH
  description := "Validate foreign key relationships"
  isGlobal := false
  generateSQL := fun config =>
    match config.foreign_key_checks with
    | none => none
    | some checks =>
      if checks.length = 0 then none
      else
        some (String.intercalate " UNION ALL "
          (checks.map (fun p =>
            referentialIntegritySQL config.fullTableName p.1 p.2.table p.2.column)))

/-- `numeric_range`: null when `numeric_range_checks` is absent or has no
entries, otherwise flag rows where any checked column is below min or above
max, joined with OR. -/
def numeric_range : TestTemplate where
  id := "numeric_range"
  name := "Numeric Range Validation"
  category := .quality
  severity := .MEDIUM
  description := "Check numeric values are within expected ranges"
  isGlobal := false
  generateSQL := fun config =>
    match config.numeric_range_checks with
    | none => none
    | some checks =>
      if checks.length = 0 then none
      else
        some (rangeViolationSQL config.fullTableName
          (String.intercalate " OR "
            (checks.map (fun p =>
              "(" ++ p.1 ++ " < " ++ toString p.2.min ++ " OR " ++ p.1 ++ " > " ++
                toString p.2.max ++ ")"))))

/-- `date_range`: null when `date_range_checks` is absent or has no entries,
otherwise flag rows where any checked column is outside its quoted date
bounds, joined with OR. -/
def date_range : TestTemplate where
  id := "date_range"
  name := "Date Range Validation"
  category := .quality
  severity := .MEDIUM
  description := "Validate dates are within expected range"
  isGlobal := false
  generateSQL := fun config =>
    match config.date_range_checks with
    | none => none
    | some checks =>
      if checks.length = 0 then none
      else
        some (rangeViolationSQL config.fullTableName
          (String.intercalate " OR "
            (checks.map (fun p =>
              "(" ++ p.1 ++ " < " ++ sq ++ p.2.min_date ++ sq ++ " OR " ++ p.1 ++ " > " ++
                sq ++ p.2.max_date ++ sq ++ ")"))))

/-- `pattern_validation`: null when `pattern_checks` is absent or has no
entries, otherwise flag rows where any checked column, cast to string, fails
REGEXP_CONTAINS of its pattern, joined with OR. -/
def pattern_validation : TestTemplate where
  id := "pattern_validation"
  name := "Pattern Validation"
  category := .quality
  severity := .MEDIUM
  description := "Check string patterns (email, phone, etc.)"
  isGlobal := false
  generateSQL := fun config =>
    match config.pattern_checks with
    | none => none
    | some checks =>
      if checks.length = 0 then none
      else
        some (rangeViolationSQL config.fullTableName
          (String.intercalate " OR "
            (checks.map (fun p =>
              "NOT REGEXP_CONTAINS(CAST(" ++ p.1 ++ " AS STRING), r" ++ sq ++ p.2 ++
                sq ++ ")"))))

/-- `outlier_detection`: null when `outlier_columns` is absent or empty,
otherwise the three-standard-deviations query over the FIRST outlier column
only (the source reads `config.outlier_columns[0]`). -/
def outlier_detection : TestTemplate where
  id := "outlier_detection"
  name := "Statistical Outlier Detection"
  category := .statistical
  severity := .LOW
  description := "Detect statistical outliers using standard deviation"
  isGlobal := false
  generateSQL := fun config =>
    match config.outlier_columns with
    | none => none
    | some cols =>
      if cols.length = 0 then none
      else
        match cols with
        | [] => none
        | col :: _ => some (outlierSQL config.fullTableName col)

/-- The registry `PREDEFINED_TESTS`, a record keyed by test id, embedded as an
association list in declaration order (the order `Object.values` and
`Object.keys` produce for this object). -/
def PREDEFINED_TESTS : List (String × TestTemplate) :=
  [("row_count_match", row_count_match),
   ("no_nulls_required", no_nulls_required),
   ("no_duplicates_pk", no_duplicates_pk),
   ("referential_integrity", referential_integrity),
   ("numeric_range", numeric_range),
   ("date_range", date_range),
   ("pattern_validation", pattern_validation),
   ("outlier_detection", outlier_detection)]

/-- Key lookup `PREDEFINED_TESTS[id]`: the template registered under `id`, or
none when `id` names no registered template. -/
def lookupTemplate (id : String) : Option TestTemplate :=
  (PREDEFINED_TESTS.find? (fun p => p.1 == id)).map Prod.snd

/-- The registry keys, in declaration order. -/
def registryKeys : List String := PREDEFINED_TESTS.map Prod.fst

/-- `getEnabledTests`: with no list or an empty list, all templates marked
`isGlobal` in declaration order; otherwise map each id through the registry
and drop the undefined lookups. -/
def getEnabledTests (enabledTestIds : Option (List String)) : List TestTemplate :=
  match enabledTestIds with
  | none => (PREDEFINED_TESTS.map Prod.snd).filter (fun t => t.isGlobal)
  | some ids =>
    if ids.length = 0 then (PREDEFINED_TESTS.map Prod.snd).filter (fun t => t.isGlobal)
    else (ids.map lookupTemplate).reduceOption

/-! ### Execution loops of the generate-tests route

The route executes each AI-produced test case against the warehouse.  The
warehouse client is embedded as a function `query : String → Except String
(List ρ)`: `Except.ok rows` is a successful query returning `rows`,
`Except.error e` is a thrown error whose `message` is `e`.  Rows are kept
abstract in `ρ`. -/

/-- One test case of the parsed AI response: `test_name`, `description`,
`sql_query`, `severity` (severity is a plain string at this point). -/
structure TestCase where
  test_name : String
  description : String
  sql_query : String
  severity : String
deriving DecidableEq, Repr

/-- Result status union. -/
inductive Status
  | PASS | FAIL | ERROR
deriving DecidableEq, Repr

/-- One result object pushed by the route execution loops. -/
structure ExecResult where
  test_name : String
  description : String
  status : Status
  severity : String
  sql_query : String
  rows_affected : Nat
  error_message : Option String
deriving DecidableEq, Repr

/-- One iteration of the execution loops: run the SQL, classify zero returned
rows as PASS and a non-empty result as FAIL with `rows_affected` equal to the
row count; a thrown error is caught and recorded as ERROR with the message
attached and `rows_affected` 0. -/
def runTest {ρ : Type} (query : String → Except String (List ρ))
    (test : TestCase) : ExecResult :=
  match query test.sql_query with
  | Except.ok rows =>
    { test_name := test.test_name
      description := test.description
      status := if rows.length = 0 then Status.PASS else Status.FAIL
      severity := test.severity
      sql_query := test.sql_query
      rows_affected := rows.length
      error_message := none }
  | Except.error e =>
    { test_name := test.test_name
      description := test.description
      status := Status.ERROR
      severity := test.severity
      sql_query := test.sql_query
      rows_affected := 0
      error_message := some e }

/-- The schema-mode execution loop: every parsed test case is executed and
contributes exactly one result, in order. -/
def runTests {ρ : Type} (query : String → Except String (List ρ))
    (tests : List TestCase) : List ExecResult :=
  tests.map (runTest query)

/-- Absolute difference of two JS numbers `Math.abs(a - b)`, embedded on
naturals through the integers. -/
def absDiff (a b : Nat) : Nat := ((a : Int) - (b : Int)).natAbs

/-- The special row-count comparison result of the GCS branch: PASS exactly
when the file row count equals the table row count, `rows_affected` is the
absolute difference, and on a mismatch a non-null `error_message` describes
the difference. -/
def rowCountResult (fileRowCount bqRowCount : Nat) : ExecResult :=
  { test_name := "Row Count Match"
    description := "GCS file has " ++ toString fileRowCount ++
      " rows, BigQuery has " ++ toString bqRowCount ++ " rows"
    status := if fileRowCount = bqRowCount then Status.PASS else Status.FAIL
    severity := "HIGH"
    sql_query := ""
    rows_affected := absDiff fileRowCount bqRowCount
    error_message :=
      if fileRowCount ≠ bqRowCount then
        some ("Row count mismatch: " ++ toString (absDiff fileRowCount bqRowCount) ++
          " rows difference")
      else none }

/-- The GCS-mode result list: the row-count comparison result first, then one
result per AI test case whose SQL text is not empty after trimming (tests
with empty SQL are skipped with `continue`). -/
def gcsResults {ρ : Type} (query : String → Except String (List ρ))
    (fileRowCount bqRowCount : Nat) (tests : List TestCase) : List ExecResult :=
  rowCountResult fileRowCount bqRowCount ::
    (tests.filter (fun t => !(t.sql_query.trim == ""))).map (runTest query)

/-! ### Execution engine with sample retention -/

/-- Result record of the backend execution engine, including the retained
sample rows. -/
structure EngineResult (ρ : Type) where
  status : Status
  rows_affected : Nat
  sample_rows : List ρ
  error_message : Option String
deriving Repr

/-- Modelled from the spec: the Execution Engine of the backend
(`backend/app/services/test_executor.py`, absent from the source tree; only
the route-level loops are present).  Per the specification a query with zero
returned rows is PASS, a non-empty result is FAIL with `rows_affected` equal
to the row count and up to 10 sample rows retained verbatim, and an
execution-time fault is caught and reported as ERROR with the underlying
message and `rows_affected` 0. -/
def executeCheck {ρ : Type} (query : String → Except String (List ρ))
    (test : TestCase) : EngineResult ρ :=
  match query test.sql_query with
  | Except.ok rows =>
    { status := if rows.length = 0 then Status.PASS else Status.FAIL
      rows_affected := rows.length
      sample_rows := rows.take 10
      error_message := none }
  | Except.error e =>
    { status := Status.ERROR
      rows_affected := 0
      sample_rows := []
      error_message := some e }

/-! ### Relational semantics of the primary-key uniqueness query

The `no_duplicates_pk` template emits `SELECT pk, COUNT(*) FROM t GROUP BY pk
HAVING COUNT(*) > 1`.  Its standard relational meaning over a table `rows`
with composite-key projection `key` is: one output row per distinct key value
whose multiplicity exceeds one, carrying that multiplicity. -/

/-- Number of table rows whose composite primary key equals `k` (the COUNT(*)
of the GROUP BY group of `k`). -/
def keyCount {ρ κ : Type} [DecidableEq κ] (key : ρ → κ) (rows : List ρ)
    (k : κ) : Nat :=
  (rows.map key).count k

/-- The distinct key values whose group has COUNT(*) > 1. -/
def duplicateKeys {ρ κ : Type} [DecidableEq κ] (key : ρ → κ) (rows : List ρ) :
    List κ :=
  (rows.map key).dedup.filter (fun k => 1 < keyCount key rows k)

/-- The result set of the GROUP BY / HAVING query: each offending key paired
with its duplicate count. -/
def duplicateKeyGroups {ρ κ : Type} [DecidableEq κ] (key : ρ → κ)
    (rows : List ρ) : List (κ × Nat) :=
  (duplicateKeys key rows).map (fun k => (k, keyCount key rows k))

/-! ### SCD Type 2 temporal validity checks

Modelled from the spec: the SCD check generators live in the backend
(`backend/app/tests/predefined_tests.py`), which is absent from the source
tree; the specification describes them as per-natural-key checks over rows
ordered by begin date ascending.  Timestamps of the fixture are encoded as
`yyyymmdd` naturals, which preserves their ordering and equality. -/

/-- One row of an SCD Type 2 dimension table, shaped after the fixture table
`D_Employee_WD` of `setup_scd_resources.sql`: natural key `userId`, surrogate
key `dwEmployeeId`, begin and end effective dates, current-row flag. -/
structure SCD2Row where
  userId : String
  userName : String
  dwEmployeeId : Nat
  beginDate : Nat
  endDate : Nat
  currentRowFlag : String
deriving DecidableEq, Repr

/-- Insert a row into a list kept sorted by ascending begin date. -/
def insertByBegin (r : SCD2Row) : List SCD2Row → List SCD2Row
  | [] => [r]
  | x :: xs =>
    if r.beginDate ≤ x.beginDate then r :: x :: xs else x :: insertByBegin r xs

/-- Sort rows by ascending begin date (the ORDER BY of the per-key window). -/
def sortByBegin : List SCD2Row → List SCD2Row
  | [] => []
  | x :: xs => insertByBegin x (sortByBegin xs)

/-- The rows of one natural key, ordered by begin date ascending. -/
def keyTimeline (rows : List SCD2Row) (k : String) : List SCD2Row :=
  sortByBegin (rows.filter (fun r => r.userId == k))

/-- True when some consecutive pair of the begin-ordered list violates
continuity, that is, the successor row begins at a date different from the
date the predecessor row ends (earlier is an overlap, later is a gap). -/
def hasBrokenContinuity : List SCD2Row → Bool
  | a :: b :: t => (b.beginDate != a.endDate) || hasBrokenContinuity (b :: t)
  | _ => false

/-- The distinct natural keys of the table, in first-occurrence order of the
deduplication. -/
def scdNaturalKeys (rows : List SCD2Row) : List String :=
  (rows.map (fun r => r.userId)).dedup

/-- Modelled from the spec: the combined no-overlap / continuity check
(`scd2_continuity`) of the absent backend.  Per the specification, for
consecutive rows sharing a natural key, ordered by begin date, any successor
begin date different from the predecessor end date is flagged; the flagged
output is reported per natural key. -/
def continuityViolations (rows : List SCD2Row) : List String :=
  (scdNaturalKeys rows).filter (fun k => hasBrokenContinuity (keyTimeline rows k))

/-- Number of rows of natural key `k` whose active flag equals the current
sentinel Y. -/
def currentRowCount (rows : List SCD2Row) (k : String) : Nat :=
  (rows.filter (fun r => r.userId == k && r.currentRowFlag == "Y")).length

/-- Modelled from the spec: the exactly-one-current-row check
(`scd2_one_current_row`) of the absent backend.  A natural key is flagged
when the number of its rows carrying the current sentinel differs from one
(zero or more than one is a violation). -/
def oneCurrentRowViolations (rows : List SCD2Row) : List String :=
  (scdNaturalKeys rows).filter (fun k => currentRowCount rows k != 1)

/-- Modelled from the spec: the date-ordering check (`scd2_date_order`) of the
absent backend.  A natural key is flagged when one of its rows does not have
begin date strictly less than end date. -/
def dateOrderingViolations (rows : List SCD2Row) : List String :=
  (scdNaturalKeys rows).filter (fun k =>
    (rows.filter (fun r => r.userId == k)).any (fun r => !(r.beginDate < r.endDate)))

/-- The SCD2 fixture table `leyin-sandpit.crown_scd_mock.D_Employee_WD` of
`setup_scd_resources.sql`, timestamps encoded as `yyyymmdd` (the sentinel end
date 2099-12-31 23:59:59 becomes 20991231). -/
def D_Employee_WD : List SCD2Row :=
  [⟨"U1", "User 1 Old", 5001, 20230101, 20230601, "N"⟩,
   ⟨"U1", "User 1 New", 5002, 20230601, 20991231, "Y"⟩,
   ⟨"U2", "User 2 A", 5003, 20230101, 20230801, "N"⟩,
   ⟨"U2", "User 2 B", 5004, 20230701, 20991231, "Y"⟩,
   ⟨"U3", "User 3 A", 5005, 20230101, 20991231, "Y"⟩,
   ⟨"U3", "User 3 B", 5006, 20230601, 20991231, "Y"⟩,
   ⟨"U4", "User 4", 5007, 20231201, 20230101, "Y"⟩,
   ⟨"U5", "User 5 A", 5008, 20230101, 20230301, "N"⟩,
   ⟨"U5", "User 5 B", 5009, 20230501, 20991231, "Y"⟩]


/-- A JS array or map field is lacking when it is absent or empty. -/
def lacks {α : Type} (o : Option (List α)) : Prop := o = none ∨ o = some []

/-- A config carrying only the mandatory table name. -/
def emptyCfg : TemplateConfig := { fullTableName := "proj.ds.tbl" }

/-- A config declaring two outlier columns. -/
def outlierCfgW : TemplateConfig :=
  { fullTableName := "proj.ds.tbl", outlier_columns := some ["amount", "price"] }

/-- A warehouse stub returning two rows for every query. -/
def qOkW : String → Except String (List Nat) := fun _ => Except.ok [7, 8]

/-- A concrete AI test case. -/
def tcW : TestCase := ⟨"ai check", "desc", "SELECT 1", "HIGH"⟩

/-- A warehouse stub that throws on the text BAD SQL and returns no rows
otherwise. -/
def qErrW : String → Except String (List Nat) := fun s =>
  if s = "BAD SQL" then Except.error "boom" else Except.ok []

/-- A test case whose SQL throws on `qErrW`. -/
def tcBadW : TestCase := ⟨"bad check", "desc", "BAD SQL", "HIGH"⟩

/-- A test case whose SQL succeeds on `qErrW`. -/
def tcOkW : TestCase := ⟨"ok check", "desc", "SELECT 1", "HIGH"⟩

/-- A table with key (1,1) duplicated and key (2,2) unique. -/
def pkRowsW : List (Nat × Nat) := [(1, 1), (1, 1), (2, 2)]

/-- A warehouse stub returning exactly the duplicate-key groups of `pkRowsW`. -/
def qPkW : String → Except String (List ((Nat × Nat) × Nat)) := fun _ =>
  Except.ok (duplicateKeyGroups (fun r => r) pkRowsW)

/-- A concrete test case for the primary-key uniqueness query. -/
def tcPkW : TestCase := ⟨"pk check", "desc", "SELECT pk", "HIGH"⟩

/-- Every registry entry stores a template whose `id` equals its key. -/
theorem predefinedTests_wf : ∀ p ∈ PREDEFINED_TESTS, p.2.id = p.1 := by
  intro p hp
  fin_cases hp <;> rfl

/-- The keys of the duplicate-key groups are the duplicate keys. -/
theorem duplicateKeyGroups_fst {ρ κ : Type} [DecidableEq κ] (key : ρ → κ)
    (rows : List ρ) :
    (duplicateKeyGroups key rows).map Prod.fst = duplicateKeys key rows := by
  simp only [duplicateKeyGroups, List.map_map]
  exact List.map_id _

/-- Membership in the duplicate keys is exactly multiplicity above one. -/
theorem mem_duplicateKeys {ρ κ : Type} [DecidableEq κ] (key : ρ → κ)
    (rows : List ρ) (k : κ) :
    k ∈ duplicateKeys key rows ↔ 1 < keyCount key rows k := by
  simp only [duplicateKeys, List.mem_filter, List.mem_dedup, decide_eq_true_eq]
  constructor
  · exact fun h => h.2
  · intro h
    refine ⟨?_, h⟩
    exact List.count_pos_iff.mp (Nat.lt_of_lt_of_le Nat.zero_lt_one (Nat.le_of_lt h))

/-- C1: for every executed check query, the engine records PASS exactly when
the query returns zero rows; a non-empty result yields FAIL with
`rows_affected` equal to the returned row count and up to 10 sample rows
retained verbatim; the route-level loop agrees on status and row count. -/
theorem execution_verdict_classification {ρ : Type}
    (query : String → Except String (List ρ)) (t : TestCase) (rows : List ρ)
    (h : query t.sql_query = Except.ok rows) :
    ((executeCheck query t).status = Status.PASS ↔ rows = [])
    ∧ ((executeCheck query t).status = Status.FAIL ↔ rows ≠ [])
    ∧ (executeCheck query t).rows_affected = rows.length
    ∧ (executeCheck query t).sample_rows = rows.take 10
    ∧ (executeCheck query t).sample_rows.length ≤ 10
    ∧ (runTest query t).status = (executeCheck query t).status
    ∧ (runTest query t).rows_affected = (executeCheck query t).rows_affected := by
  by_cases hr : rows = []
  · subst hr
    simp [executeCheck, runTest, h]
  · have hl : rows.length ≠ 0 := fun hc => hr (List.length_eq_zero.mp hc)
    refine ⟨?_, ?_, ?_, ?_, ?_, ?_, ?_⟩ <;>
      simp [executeCheck, runTest, h, hl, hr, List.length_take]

/-- Closed instance of the C1 theorem at a warehouse stub returning two
rows. -/
theorem execution_verdict_classification_witness :
    ((executeCheck qOkW tcW).status = Status.PASS ↔ ([7, 8] : List Nat) = [])
    ∧ ((executeCheck qOkW tcW).status = Status.FAIL ↔ ([7, 8] : List Nat) ≠ [])
    ∧ (executeCheck qOkW tcW).rows_affected = ([7, 8] : List Nat).length
    ∧ (executeCheck qOkW tcW).sample_rows = ([7, 8] : List Nat).take 10
    ∧ (executeCheck qOkW tcW).sample_rows.length ≤ 10
    ∧ (runTest qOkW tcW).status = (executeCheck qOkW tcW).status
    ∧ (runTest qOkW tcW).rows_affected = (executeCheck qOkW tcW).rows_affected :=
  execution_verdict_classification qOkW tcW [7, 8] rfl

/-- C2: a thrown check is caught and recorded as ERROR with the underlying
message and `rows_affected` 0, and the remaining checks of the batch still
execute: the loop yields one result per test case, in order, around the
failing one. -/
theorem error_containment {ρ : Type} (query : String → Except String (List ρ))
    (pre post : List TestCase) (t : TestCase) (e : String)
    (h : query t.sql_query = Except.error e) :
    (runTest query t).status = Status.ERROR
    ∧ (runTest query t).error_message = some e
    ∧ (runTest query t).rows_affected = 0
    ∧ runTests query (pre ++ t :: post) =
        runTests query pre ++ runTest query t :: runTests query post
    ∧ (runTests query (pre ++ t :: post)).length = pre.length + 1 + post.length := by
  refine ⟨?_, ?_, ?_, ?_, ?_⟩ <;> simp [runTest, runTests, h]
  omega

/-- Closed instance of the C2 theorem: one erroring check between two
successful siblings. -/
theorem error_containment_witness :
    (runTest qErrW tcBadW).status = Status.ERROR
    ∧ (runTest qErrW tcBadW).error_message = some "boom"
    ∧ (runTest qErrW tcBadW).rows_affected = 0
    ∧ runTests qErrW ([tcOkW] ++ tcBadW :: [tcOkW]) =
        runTests qErrW [tcOkW] ++ runTest qErrW tcBadW :: runTests qErrW [tcOkW]
    ∧ (runTests qErrW ([tcOkW] ++ tcBadW :: [tcOkW])).length =
        [tcOkW].length + 1 + [tcOkW].length :=
  error_containment qErrW [tcOkW] [tcOkW] tcBadW "boom" rfl

/-- C3: every predefined template returns null (and never throws, being a
total function) on a config lacking the configuration field it requires;
`row_count_match` returns null on every config. -/
theorem templates_null_on_missing_config (c : TemplateConfig) :
    row_count_match.generateSQL c = none
    ∧ (lacks c.required_columns → no_nulls_required.generateSQL c = none)
    ∧ (lacks c.primary_key_columns → no_duplicates_pk.generateSQL c = none)
    ∧ (lacks c.foreign_key_checks → referential_integrity.generateSQL c = none)
    ∧ (lacks c.numeric_range_checks → numeric_range.generateSQL c = none)
    ∧ (lacks c.date_range_checks → date_range.generateSQL c = none)
    ∧ (lacks c.pattern_checks → pattern_validation.generateSQL c = none)
    ∧ (lacks c.outlier_columns → outlier_detection.generateSQL c = none) := by
  refine ⟨rfl, ?_, ?_, ?_, ?_, ?_, ?_, ?_⟩ <;>
    · rintro (h | h) <;>
        simp [no_nulls_required, no_duplicates_pk, referential_integrity,
          numeric_range, date_range, pattern_validation, outlier_detection, h]

/-- Closed instance of the C3 theorem at the config carrying no check
configuration at all. -/
theorem templates_null_on_missing_config_witness :
    row_count_match.generateSQL emptyCfg = none
    ∧ no_nulls_required.generateSQL emptyCfg = none
    ∧ no_duplicates_pk.generateSQL emptyCfg = none
    ∧ referential_integrity.generateSQL emptyCfg = none
    ∧ numeric_range.generateSQL emptyCfg = none
    ∧ date_range.generateSQL emptyCfg = none
    ∧ pattern_validation.generateSQL emptyCfg = none
    ∧ outlier_detection.generateSQL emptyCfg = none :=
  ⟨(templates_null_on_missing_config emptyCfg).1,
   (templates_null_on_missing_config emptyCfg).2.1 (Or.inl rfl),
   (templates_null_on_missing_config emptyCfg).2.2.1 (Or.inl rfl),
   (templates_null_on_missing_config emptyCfg).2.2.2.1 (Or.inl rfl),
   (templates_null_on_missing_config emptyCfg).2.2.2.2.1 (Or.inl rfl),
   (templates_null_on_missing_config emptyCfg).2.2.2.2.2.1 (Or.inl rfl),
   (templates_null_on_missing_config emptyCfg).2.2.2.2.2.2.1 (Or.inl rfl),
   (templates_null_on_missing_config emptyCfg).2.2.2.2.2.2.2 (Or.inl rfl)⟩

/-- C4: the row-count-match result is PASS exactly when the independently
obtained source and target counts agree, is FAIL exactly when they differ
(never ERROR), and its `rows_affected` is their absolute difference; the
registered `row_count_match` template itself generates no SQL. -/
theorem row_count_match_verdict (a b : Nat) :
    ((rowCountResult a b).status = Status.PASS ↔ a = b)
    ∧ ((rowCountResult a b).status = Status.FAIL ↔ a ≠ b)
    ∧ (rowCountResult a b).rows_affected = ((a : Int) - (b : Int)).natAbs
    ∧ (rowCountResult a b).sql_query = ""
    ∧ (∀ c : TemplateConfig, row_count_match.generateSQL c = none) := by
  refine ⟨?_, ?_, rfl, rfl, fun c => rfl⟩ <;>
    by_cases h : a = b <;> simp [rowCountResult, h]

/-- C5 as stated is false: the GCS run output contains the row-count result,
which on a count mismatch carries status FAIL together with a non-null
`error_message`. -/
theorem error_message_iff_error_counterexample :
    gcsResults (fun _ => Except.ok ([] : List Nat)) 1 0 [] = [rowCountResult 1 0]
    ∧ (rowCountResult 1 0).status = Status.FAIL
    ∧ (rowCountResult 1 0).status ≠ Status.ERROR
    ∧ (rowCountResult 1 0).error_message ≠ none := by
  refine ⟨rfl, rfl, by decide, by simp [rowCountResult]⟩

/-- C5 amended: every result produced by executing a SQL test has
`error_message` non-null exactly when its status is ERROR; the special
row-count-match result instead has `error_message` non-null exactly when its
status is FAIL. -/
theorem error_message_presence_amended {ρ : Type}
    (query : String → Except String (List ρ)) (t : TestCase) (a b : Nat) :
    ((runTest query t).error_message ≠ none ↔ (runTest query t).status = Status.ERROR)
    ∧ ((rowCountResult a b).error_message ≠ none ↔
        (rowCountResult a b).status = Status.FAIL) := by
  constructor
  · rcases h : query t.sql_query with rows | e <;>
      simp [runTest, h] <;> split <;> simp
  · by_cases h : a = b <;> simp [rowCountResult, h]

/-- C6 as stated is false under the specified continuity rule: on the SCD2
fixture the combined no-overlap / continuity check also flags U3, whose two
current rows hold overlapping intervals, not only U2 and U5. -/
theorem scd2_continuity_flags_u3 :
    "U3" ∈ continuityViolations D_Employee_WD
    ∧ "U3" ≠ "U2" ∧ "U3" ≠ "U5" := by decide

/-- C6 amended: on the SCD2 fixture the continuity/no-overlap check flags
exactly U2, U3 and U5, the exactly-one-current-row check flags exactly U3,
and the date-ordering check flags exactly U4. -/
theorem scd2_fixture_flagged_keys :
    continuityViolations D_Employee_WD = ["U2", "U3", "U5"]
    ∧ oneCurrentRowViolations D_Employee_WD = ["U3"]
    ∧ dateOrderingViolations D_Employee_WD = ["U4"] := by
  refine ⟨by decide, by decide, by decide⟩

/-- C7: the primary-key uniqueness query groups by the full composite key and
keeps groups with count above one: its result has exactly one offending group
per duplicated key combination (keys pairwise distinct, a key present exactly
when more than one row carries it), and the recorded `rows_affected` is the
number of offending groups. -/
theorem pk_uniqueness_groups {ρ κ : Type} [DecidableEq κ]
    (query : String → Except String (List (κ × Nat))) (t : TestCase)
    (key : ρ → κ) (rows : List ρ)
    (h : query t.sql_query = Except.ok (duplicateKeyGroups key rows)) :
    ((duplicateKeyGroups key rows).map Prod.fst).Nodup
    ∧ (∀ k, k ∈ (duplicateKeyGroups key rows).map Prod.fst ↔
        1 < keyCount key rows k)
    ∧ (runTest query t).rows_affected = (duplicateKeyGroups key rows).length := by
  refine ⟨?_, ?_, ?_⟩
  · rw [duplicateKeyGroups_fst]
    exact (List.nodup_dedup _).filter _
  · intro k
    rw [duplicateKeyGroups_fst]
    exact mem_duplicateKeys key rows k
  · simp [runTest, h]

/-- Closed instance of the C7 theorem on a table with one duplicated key
combination. -/
theorem pk_uniqueness_groups_witness :
    ((duplicateKeyGroups (fun r => r) pkRowsW).map Prod.fst).Nodup
    ∧ (∀ k, k ∈ (duplicateKeyGroups (fun r => r) pkRowsW).map Prod.fst ↔
        1 < keyCount (fun r => r) pkRowsW k)
    ∧ (runTest qPkW tcPkW).rows_affected =
        (duplicateKeyGroups (fun r => r) pkRowsW).length :=
  pk_uniqueness_groups qPkW tcPkW (fun r => r) pkRowsW rfl

/-- C8: with an empty or absent `enabled_test_ids` list, the selected
templates are exactly the registry entries marked global, in declaration
order: row-count match, required-fields-not-null, primary-key uniqueness. -/
theorem enabled_tests_default_globals :
    getEnabledTests none = (PREDEFINED_TESTS.map Prod.snd).filter (fun t => t.isGlobal)
    ∧ getEnabledTests (some []) =
        (PREDEFINED_TESTS.map Prod.snd).filter (fun t => t.isGlobal)
    ∧ getEnabledTests none = [row_count_match, no_nulls_required, no_duplicates_pk]
    ∧ (getEnabledTests none).map (fun t => t.id) =
        ["row_count_match", "no_nulls_required", "no_duplicates_pk"] :=
  ⟨rfl, rfl, rfl, rfl⟩

/-- C9: the outlier-detection template compiles the three-standard-deviations
query over the FIRST declared outlier column only; the generated SQL is
unchanged by whatever columns follow the first. -/
theorem outlier_first_column_only (c : TemplateConfig) (col : String)
    (rest : List String) (h : c.outlier_columns = some (col :: rest)) :
    outlier_detection.generateSQL c = some (outlierSQL c.fullTableName col)
    ∧ ∀ rest2 : List String,
        outlier_detection.generateSQL
          { c with outlier_columns := some (col :: rest2) } =
          some (outlierSQL c.fullTableName col) := by
  constructor
  · simp [outlier_detection, h]
  · intro rest2
    simp [outlier_detection]

/-- Closed instance of the C9 theorem at a config declaring the columns
amount and price: only amount is compiled into the query. -/
theorem outlier_first_column_only_witness :
    outlier_detection.generateSQL outlierCfgW =
      some (outlierSQL outlierCfgW.fullTableName "amount")
    ∧ ∀ rest2 : List String,
        outlier_detection.generateSQL
          { outlierCfgW with outlier_columns := some ("amount" :: rest2) } =
          some (outlierSQL outlierCfgW.fullTableName "amount") :=
  outlier_first_column_only outlierCfgW "amount" ["price"] rfl

/-- C10: with a non-empty `enabled_test_ids` list, `getEnabledTests` maps each
id through the registry in list order and keeps exactly the defined lookups:
an id naming no registered template is silently dropped, every kept template
is the registered one for its id. -/
theorem enabled_tests_lookup_filter (ids : List String) (h : ids ≠ []) :
    getEnabledTests (some ids) = ids.filterMap lookupTemplate
    ∧ (∀ id, lookupTemplate id = none ↔ id ∉ registryKeys)
    ∧ (∀ id t, lookupTemplate id = some t → t.id = id) := by
  refine ⟨?_, ?_, ?_⟩
  · have hlen : ¬ ids.length = 0 := fun hc => h (List.length_eq_zero.mp hc)
    simp [getEnabledTests, hlen, List.reduceOption, List.filterMap_map]
  · intro id
    simp only [lookupTemplate, Option.map_eq_none', List.find?_eq_none,
      registryKeys, List.mem_map, beq_iff_eq]
    push_neg
    constructor
    · rintro hall p hp rfl
      exact hall p hp rfl
    · rintro hall p hp rfl
      exact hall p hp rfl
  · intro id t hsome
    rcases Option.map_eq_some'.mp hsome with ⟨p, hfind, hsnd⟩
    have hkey : p.1 = id := by
      have := List.find?_some hfind
      simpa [beq_iff_eq] using this
    have hmem := List.mem_of_find?_eq_some hfind
    have := predefinedTests_wf p hmem
    rw [← hsnd, this, hkey]

/-- Closed instance of the C10 theorem at a list holding two registered ids
around one unknown id, which is dropped. -/
theorem enabled_tests_lookup_filter_witness :
    getEnabledTests (some ["no_duplicates_pk", "bogus", "row_count_match"]) =
      (["no_duplicates_pk", "bogus", "row_count_match"] : List String).filterMap
        lookupTemplate
    ∧ (∀ id, lookupTemplate id = none ↔ id ∉ registryKeys)
    ∧ (∀ id t, lookupTemplate id = some t → t.id = id) :=
  enabled_tests_lookup_filter ["no_duplicates_pk", "bogus", "row_count_match"]
    (by decide)

end QAAgent
